import Mathlib

/-!
Verification development for the NDBC `DataBuoy` module (`NDBC/NDBC.py`).

The Python code is shallowly embedded: each method body is translated into an
executable Lean function over explicit state, and every Python exception that a
relevant code path can raise is modelled by an `Except PyErr` result.  The
pandas operations used by `load_stdmet` (`read_csv`, `.loc`, `.drop`, column
`Series` access and arithmetic, `set_index`, `append`) are modelled at the
granularity the claims need: cells carry either an integer (a column whose raw
tokens are all integer literals, pandas `int64` dtype) or the raw token string
(`object` dtype).  Approximations that do not affect any claim are noted at the
definition they concern.
-/

/-- Equality of `Except` results is decidable when both components are;
used to settle concrete runs of the embedded code by `decide`. -/
instance {ε α : Type} [DecidableEq ε] [DecidableEq α] : DecidableEq (Except ε α) := fun x y =>
  match x, y with
  | .ok a, .ok b =>
    if h : a = b then .isTrue (congrArg Except.ok h)
    else .isFalse (fun hc => h (Except.ok.inj hc))
  | .error a, .error b =>
    if h : a = b then .isTrue (congrArg Except.error h)
    else .isFalse (fun hc => h (Except.error.inj hc))
  | .ok _, .error _ => .isFalse (fun hc => Except.noConfusion hc)
  | .error _, .ok _ => .isFalse (fun hc => Except.noConfusion hc)

namespace NDBC

/-- The Python exceptions raised by the code paths under study. -/
inductive PyErr where
  | keyError (k : String)
  | typeError
  | valueError
  | indexError
  | attributeError
  | emptyData
  | parserError
  | connectionError
  deriving Repr, DecidableEq

/-- A pandas cell after `read_csv` dtype inference: `int` for a column whose
raw tokens are all integer literals (pandas `int64`), `str` for any other
column (pandas `object`; all-float columns are also folded into `str`, which
only makes more payloads fail - the units-row check subscripts the cell either
way, and date/time columns holding non-digit tokens fail at `strptime`). -/
inductive Cell where
  | int (n : Int)
  | str (s : String)
  deriving Repr, DecidableEq

/-- A resolved `datetime` value (the row key produced by the indexer). -/
structure Timestamp where
  year : Nat
  month : Nat
  day : Nat
  hour : Nat
  minute : Nat
  deriving Repr, DecidableEq

/-- A raw fetched payload, already split on runs of whitespace:
the header line's tokens and each subsequent line's tokens. -/
structure Payload where
  header : List String
  rows : List (List String)
  deriving Repr, DecidableEq

/-- A pandas `DataFrame` as `load_stdmet` uses it: named columns, integer row
labels `start, start+1, ...` (`start` is 0 after `read_csv` and becomes 1 when
the units row with label 0 is dropped), and one cell list per row. -/
structure DataFrame where
  columns : List String
  start : Nat
  rows : List (List Cell)
  deriving Repr, DecidableEq

/-- The station's `data['stdmet']` table: pandas keeps one row per `append`d
record, keyed (not necessarily uniquely) by its timestamp index. -/
abbrev Table := List (Timestamp × List Cell)

/-- Numeric value of a digit character. -/
def digitVal (c : Char) : Nat := c.toNat - 48

/-- Value of a digit string. -/
def digitsVal (l : List Char) : Nat := l.foldl (fun a c => a * 10 + digitVal c) 0

/-- All characters are ASCII digits. -/
def allDigits (l : List Char) : Bool := l.all Char.isDigit

/-- Success condition of Python `int(token)` on a whitespace-free token:
an optional sign followed by at least one digit. -/
def isIntToken (s : String) : Bool :=
  match s.data with
  | [] => false
  | c :: cs =>
    if c == '-' || c == '+' then !cs.isEmpty && allDigits cs
    else allDigits (c :: cs)

/-- Value of an integer token (meaningful when `isIntToken` holds). -/
def parseIntTok (s : String) : Int :=
  match s.data with
  | [] => 0
  | c :: cs =>
    if c == '-' then - (digitsVal cs : Int)
    else if c == '+' then (digitsVal cs : Int)
    else (digitsVal (c :: cs) : Int)

/-- Decimal digit count, fuelled so that it reduces by evaluation. -/
def ndAux : Nat → Nat → Nat
  | 0, _ => 1
  | fuel + 1, n => if n < 10 then 1 else ndAux fuel (n / 10) + 1

/-- Number of decimal digits of a positive natural number. -/
def numDigits (n : Nat) : Nat := ndAux n n

/-- `int(math.floor(math.log(y, 10) + 1))` from line 96: the digit count of
the year value; `math.log` raises `ValueError` for `y <= 0`.  (The binary
floating point of `math.log` can undercount for some powers of ten, but never
changes whether the result equals 2, the only use made of it.) -/
def pyDigitCount (n : Int) : Except PyErr Nat :=
  if n ≤ 0 then .error .valueError else .ok (numDigits n.toNat)

/-- Python `int(cell)`: identity on integer cells, digit-string parse on
string cells, `ValueError` otherwise. -/
def pyInt (c : Cell) : Except PyErr Int :=
  match c with
  | .int n => .ok n
  | .str s => if isIntToken s then .ok (parseIntTok s) else .error .valueError

/-- Convert one raw token given its column's integer-dtype flag. -/
def convTok (flag : Bool) (tok : String) : Cell :=
  if flag then .int (parseIntTok tok) else .str tok

/-- pandas dtype inference for column `j`: `int64` iff every row's token in
that column is an integer literal. -/
def colIsInt (p : Payload) (j : Nat) : Bool :=
  p.rows.all (fun r => isIntToken (r.getD j ""))

/-- Integer-dtype flags for all columns of a payload. -/
def csvFlags (p : Payload) : List Bool :=
  (List.range p.header.length).map (colIsInt p)

/-- The cell matrix `read_csv` produces for a payload. -/
def csvCells (p : Payload) : List (List Cell) :=
  p.rows.map (fun r => List.zipWith (fun tok flag => convTok flag tok) r (csvFlags p))

/-- `pd.read_csv(url, '\s+')` from line 80, applied to the already-fetched
payload text.  An empty header is pandas `EmptyDataError`; duplicate or ragged
rows are folded into a parser error (pandas mangles duplicate names and
errors on extra fields; no claim exercises either, and every such payload
still fails to load). -/
def read_csv (p : Payload) : Except PyErr DataFrame :=
  if p.header = [] then .error .emptyData
  else if ¬ p.header.Nodup then .error .parserError
  else if ∃ r ∈ p.rows, r.length ≠ p.header.length then .error .parserError
  else .ok ⟨p.header, 0, csvCells p⟩

/-- Lines 82-84: `if data_df.loc[0][0][0] == '#': ... data_df = data_df.drop([0])`.
Called directly on the `read_csv` result (`start = 0`).  `loc[0]` on an empty
frame raises `KeyError`; subscripting an integer cell raises `TypeError`;
subscripting an empty string raises `IndexError`. -/
def unitsStep (df : DataFrame) : Except PyErr DataFrame :=
  match df.rows with
  | [] => .error (.keyError "0")
  | r0 :: rest =>
    match r0 with
    | [] => .error .indexError
    | c0 :: _ =>
      match c0 with
      | .int _ => .error .typeError
      | .str s =>
        match s.data with
        | [] => .error .indexError
        | ch :: _ => if ch = '#' then .ok ⟨df.columns, df.start + 1, rest⟩ else .ok df

/-- The cell of row `r` in the column named `c` (columns are unique). -/
def lookupCell (columns : List String) (r : List Cell) (c : String) : Cell :=
  (List.lookup c (columns.zip r)).getD (.str "")

/-- `data_df[col][label]` from line 96: column access raises `KeyError col`
when the column is absent, then label access raises `KeyError label` when no
row carries that label. -/
def seriesGet (df : DataFrame) (col : String) (label : Nat) : Except PyErr Cell :=
  if col ∈ df.columns then
    if df.start ≤ label ∧ label - df.start < df.rows.length then
      .ok (lookupCell df.columns (df.rows.getD (label - df.start) []) col)
    else .error (.keyError (toString label))
  else .error (.keyError col)

/-- Whether a cell is an integer cell. -/
def isIntCell : Cell → Bool
  | .int _ => true
  | .str _ => false

/-- Add 1900 to an integer cell (string cells are untouched; the guard in
`addYear1900` makes that case unreachable). -/
def bump1900 : Cell → Cell
  | .int n => .int (n + 1900)
  | .str s => .str s

/-- Replace the cells of the column named `col` by their 1900-bumped value. -/
def bumpRow (col : String) : List String → List Cell → List Cell
  | [], _ => []
  | _ :: _, [] => []
  | n :: ns, c :: cs => (if n = col then bump1900 c else c) :: bumpRow col ns cs

/-- Line 97: `data_df[yt] = data_df[yt] + 1900`.  Adding an integer to a
pandas `object` (string) column raises `TypeError`; on an `int64` column it
adds elementwise. -/
def addYear1900 (df : DataFrame) (col : String) : Except PyErr DataFrame :=
  if col ∈ df.columns then
    if df.rows.all (fun r => isIntCell (lookupCell df.columns r col)) then
      .ok ⟨df.columns, df.start, df.rows.map (bumpRow col df.columns)⟩
    else .error .typeError
  else .error (.keyError col)

/-- Line 79: `year_types = ['YY', 'YYYY', '#YY']`. -/
def year_types : List String := ["YY", "YYYY", "#YY"]

/-- Lines 86-89: `dt_index_cols = ['#YY', 'MM', 'DD', 'hh']`, plus `'mm'`
when the payload's header has a minutes column. -/
def dtIndexCols0 (hasMm : Bool) : List String :=
  ["#YY", "MM", "DD", "hh"] ++ (if hasMm then ["mm"] else [])

/-- Line 93: `yt = [x for x in year_types if x in dt_index_cols][0]`.  Note
that the source filters against the hardcoded `dt_index_cols` list, not the
payload's columns; `[0]` on an empty list would be `IndexError`. -/
def ytSelect (cols : List String) : Except PyErr String :=
  match year_types.filter (fun x => decide (x ∈ cols)) with
  | [] => .error .indexError
  | y :: _ => .ok y

/-- Line 87 (and 90): the directive dictionary `dt_format_vals`. -/
def dt_format_vals : List (String × String) :=
  [("#YY", "%Y"), ("MM", "%m"), ("DD", "%d"), ("hh", "%H"), ("mm", "%M")]

/-- Line 99: `dt_format_str = ' '.join([dt_format_vals[x] for x in dt_index_cols])`,
kept as the directive list (the values are joined and re-split on whitespace
by `strptime`, so the list is the faithful form). -/
def buildFormat (cols : List String) : Except PyErr (List String) :=
  cols.mapM (fun c =>
    match List.lookup c dt_format_vals with
    | some f => Except.ok f
    | none => Except.error (PyErr.keyError c))

/-- The index part of `set_index(cols)`: the named cells, in `cols` order. -/
def idxProj (columns : List String) (cols : List String) (r : List Cell) : List Cell :=
  cols.map (lookupCell columns r)

/-- The remaining part of `set_index(cols)`: the row with the index columns
removed, original order preserved. -/
def restProj (cols : List String) : List String → List Cell → List Cell
  | [], _ => []
  | _ :: _, [] => []
  | n :: ns, c :: cs => if n ∈ cols then restProj cols ns cs else c :: restProj cols ns cs

/-- Line 101: `data_df.set_index(dt_index_cols, inplace=True)`; raises
`KeyError` when one of the requested columns is absent. -/
def setIndex (df : DataFrame) (cols : List String) :
    Except PyErr (List (List Cell) × List (List Cell)) :=
  match cols.find? (fun c => decide (c ∉ df.columns)) with
  | some c => .error (.keyError c)
  | none => .ok (df.rows.map (idxProj df.columns cols), df.rows.map (restProj cols df.columns))

/-- Gregorian leap-year rule used by `datetime`. -/
def leapYear (y : Nat) : Bool :=
  decide (y % 4 = 0) && (decide (y % 100 ≠ 0) || decide (y % 400 = 0))

/-- Days in a month, as `datetime` validates them. -/
def daysInMonth (y m : Nat) : Nat :=
  if m = 2 then (if leapYear y then 29 else 28)
  else if m = 4 ∨ m = 6 ∨ m = 9 ∨ m = 11 then 30
  else 31

/-- CPython `strptime`'s `%Y` directive: exactly four digits. -/
def matchY (s : String) : Except PyErr Nat :=
  if s.data.length = 4 ∧ allDigits s.data = true then .ok (digitsVal s.data)
  else .error .valueError

/-- CPython `strptime`'s one-or-two-digit directives (`%m`, `%d`, `%H`, `%M`)
with their regex value ranges. -/
def match2 (lo hi : Nat) (s : String) : Except PyErr Nat :=
  if 1 ≤ s.data.length ∧ s.data.length ≤ 2 ∧ allDigits s.data = true
      ∧ lo ≤ digitsVal s.data ∧ digitsVal s.data ≤ hi
  then .ok (digitsVal s.data) else .error .valueError

/-- Dispatch one `strptime` directive against one component token. -/
def matchDirective (d : String) (s : String) : Except PyErr Nat :=
  if d = "%Y" then matchY s
  else if d = "%m" then match2 1 12 s
  else if d = "%d" then match2 1 31 s
  else if d = "%H" then match2 0 23 s
  else if d = "%M" then match2 0 59 s
  else .error .valueError

/-- Line 103: `dt.strptime(' '.join(x), dt_format_str)`.  The joined
components are whitespace-free tokens, so the whitespace-separated format
matches them componentwise; `datetime` then validates the calendar day (and
that the year is at least `MINYEAR = 1`), raising `ValueError` otherwise.
An unparsed minute defaults to 0. -/
def pyStrptime (fmt : List String) (vals : List String) : Except PyErr Timestamp :=
  if fmt.length = vals.length then
    match (fmt.zip vals).mapM (fun q => matchDirective q.1 q.2) with
    | .error e => .error e
    | .ok comps =>
      match comps with
      | [y, mo, d, h] =>
        if 1 ≤ y ∧ d ≤ daysInMonth y mo then .ok ⟨y, mo, d, h, 0⟩ else .error .valueError
      | [y, mo, d, h, mi] =>
        if 1 ≤ y ∧ d ≤ daysInMonth y mo then .ok ⟨y, mo, d, h, mi⟩ else .error .valueError
      | _ => .error .valueError
  else .error .valueError

/-- `' '.join(x)` over an index tuple (line 103): joining raises `TypeError`
as soon as a component is an integer cell rather than a string. -/
def joinStrs (cells : List Cell) : Except PyErr (List String) :=
  cells.mapM (fun c =>
    match c with
    | .str s => Except.ok s
    | .int _ => Except.error PyErr.typeError)

/-- Lines 79-106 of `load_stdmet`: everything up to (but excluding) the final
merge.  Produces the indexed batch `data_df` whose index has been replaced by
resolved timestamps; the station's table is not consulted anywhere here. -/
def stdmetPipeline (p : Payload) : Except PyErr Table := do
  let df ← read_csv p
  let df ← unitsStep df
  let hasMm := decide ("mm" ∈ df.columns)
  let cols0 := dtIndexCols0 hasMm
  let yt ← ytSelect cols0
  let cols := cols0.set 0 yt
  let c ← seriesGet df yt 1
  let yv ← pyInt c
  let d ← pyDigitCount yv
  let df ← if d = 2 then addYear1900 df yt else pure df
  let fmt ← buildFormat cols
  let pair ← setIndex df cols
  let ts ← pair.1.mapM (fun tup => do pyStrptime fmt (← joinStrs tup))
  return ts.zip pair.2

/-- `load_stdmet` (lines 74-108): build the indexed batch, then line 108
merges it into the station's table with `DataFrame.append`, which concatenates
rows (it neither deduplicates nor reorders). -/
def load_stdmet (t : Table) (p : Payload) : Except PyErr Table := do
  let batch ← stdmetPipeline p
  return t ++ batch

/-- The network as `requests` sees it: the status code a `HEAD` request gets
for a URL, and the payload a `GET`-style fetch (`pd.read_csv(url)`) gets.
An `Except` error models a raised transport exception (`requests` raises, for
example, `ConnectionError`; neither caller catches anything). -/
structure Web where
  headStatus : String → Except PyErr Nat
  fetch : String → Except PyErr Payload

/-- `__checkurl__` (lines 61-72): `res = requests.head(url)` followed by
`return res.status_code == 200`.  A raised transport exception propagates. -/
def checkurl (w : Web) (url : String) : Except PyErr Bool := do
  let s ← w.headStatus url
  return decide (s = 200)

/-- Line 42: the class attribute `STDMET_MONTHURL` template string. -/
def STDMET_MONTHURL : String :=
  "https://www.ndbc.noaa.gov/data/stdmet/{month}/{station}.txt"

/-- Line 44: the class attribute `STDMET_YEARURL` template string. -/
def STDMET_YEARURL : String :=
  "https://www.ndbc.noaa.gov/view_text_file.php?filename={station}h{year}.txt.gz&dir=data/historical/stdmet/"

/-- `STDMET_MONTHURL.format(month=..., station=...)`. -/
def monthUrl (month station : String) : String :=
  "https://www.ndbc.noaa.gov/data/stdmet/" ++ month ++ "/" ++ station ++ ".txt"

/-- `STDMET_YEARURL.format(station=..., year=...)` (`format` renders the year
with `str`). -/
def yearUrl (station : String) (year : Nat) : String :=
  "https://www.ndbc.noaa.gov/view_text_file.php?filename=" ++ station ++ "h"
    ++ toString year ++ ".txt.gz&dir=data/historical/stdmet/"

/-- `%b` month abbreviations in the C locale. -/
def monthNames : List String :=
  ["Jan", "Feb", "Mar", "Apr", "May", "Jun", "Jul", "Aug", "Sep", "Oct", "Nov", "Dec"]

/-- `dt(dt.today().year, month_num, 1).strftime('%b')` (lines 135 and 155):
`datetime` raises `ValueError` when the month is outside 1..12 (in particular
at `month_num = 0`); the abbreviation does not depend on the year, and
`dt.today().year` is always a valid year. -/
def monthAbbrv (m : Nat) : Except PyErr String :=
  if 1 ≤ m ∧ m ≤ 12 then .ok (monthNames.getD (m - 1) "") else .error .valueError

/-- `self.load_stdmet(url)` as called from `get_stdmet`: `pd.read_csv(url)`
fetches the payload over the network (a transport exception propagates), then
the batch is parsed and merged. -/
def load_url (w : Web) (t : Table) (url : String) : Except PyErr Table := do
  let p ← w.fetch url
  load_stdmet t p

/-- The `while month_num >= 0 and not valid` loop of lines 131-142, with the
station string already resolved.  Returns the `my_url` left by the loop and
the accumulated `times_unavailable`.  At month 0 the loop body raises
`ValueError` (line 135) before probing anything, so the loop can only exit
with a valid URL. -/
def stdmet_walk (w : Web) (station : String) : Nat → String → Except PyErr (String × String)
  | 0, _ => .error .valueError
  | m + 1, times => do
    let ab ← monthAbbrv (m + 1)
    let url := monthUrl ab station
    let valid ← checkurl w url
    if valid then return (url, times)
    else stdmet_walk w station m (times ++ ab ++ " not available.\n ")

/-- One iteration of the `for year in years` loop (lines 147-152), station
already resolved. -/
def yearStep (w : Web) (station : String) (acc : Table × String) (year : Nat) :
    Except PyErr (Table × String) := do
  let url := yearUrl station year
  let valid ← checkurl w url
  if valid then
    let t ← load_url w acc.1 url
    return (t, acc.2)
  else
    return (acc.1, acc.2 ++ "Year " ++ toString year ++ " not available.\n")

/-- One iteration of the `for month in months` loop (lines 154-161), station
already resolved. -/
def monthStep (w : Web) (station : String) (acc : Table × String) (m : Nat) :
    Except PyErr (Table × String) := do
  let ab ← monthAbbrv m
  let url := monthUrl ab station
  let valid ← checkurl w url
  if valid then
    let t ← load_url w acc.1 url
    return (t, acc.2)
  else
    return (acc.1, acc.2 ++ ab ++ " not available.\n")

/-- The body of `get_stdmet` (lines 110-164) under the evidently intended
attribute access: `self.station_id` read as the station code that `__init__`
stored (it actually stores it under `_station_id`; the faithful
attribute-resolving version is `DataBuoy.get_stdmet` below).  The table is
the station's current `data['stdmet']`; the result pairs the new table with
the returned advisory (`None` when `times_unavailable` stayed empty). -/
def get_stdmet_logic (w : Web) (station : String) (t : Table)
    (years months : List Nat) (curMonth : Nat) : Except PyErr (Table × Option String) := do
  if years = [] ∧ months = [] then
    let r ← stdmet_walk w station curMonth ""
    let t ← load_url w t r.1
    return (t, if r.2.length > 0 then some r.2 else none)
  else
    let acc ← years.foldlM (yearStep w station) (t, "")
    let acc ← months.foldlM (monthStep w station) acc
    return (acc.1, if acc.2.length > 0 then some acc.2 else none)

/-- The `DataBuoy` instance state: `__init__` (lines 46-53) stores the station
code in `self._station_id` and the table in `self.data['stdmet']`. -/
structure DataBuoy where
  _station_id : String
  stdmet : Table
  deriving Repr, DecidableEq

/-- Python attribute lookup on a `DataBuoy` instance, restricted to string
data attributes: the instance dictionary holds only `_station_id` (and the
`data` dict, modelled as `stdmet`); the class dictionary holds only the two
URL templates and the methods - in particular no `station_id` property
exists anywhere in the class. -/
def DataBuoy.attr (b : DataBuoy) (name : String) : Option String :=
  if name = "_station_id" then some b._station_id else none

/-- Attribute access `self.<name>`: raises `AttributeError` when the name is
not found. -/
def battr (b : DataBuoy) (name : String) : Except PyErr String :=
  match b.attr name with
  | some v => .ok v
  | none => .error .attributeError

/-- The default-search loop exactly as written: each iteration computes the
month abbreviation, then evaluates `self.STDMET_MONTHURL.format(month=...,
station=self.station_id)` (line 136-137), which resolves the `station_id`
attribute. -/
def buoy_walk (w : Web) (b : DataBuoy) : Nat → String → Except PyErr (String × String)
  | 0, _ => .error .valueError
  | m + 1, times => do
    let ab ← monthAbbrv (m + 1)
    let station ← battr b "station_id"
    let url := monthUrl ab station
    let valid ← checkurl w url
    if valid then return (url, times)
    else buoy_walk w b m (times ++ ab ++ " not available.\n ")

/-- One `for year in years` iteration as written: line 148 resolves
`self.station_id` while building the URL. -/
def buoyYearStep (w : Web) (b : DataBuoy) (acc : Table × String) (year : Nat) :
    Except PyErr (Table × String) := do
  let station ← battr b "station_id"
  yearStep w station acc year

/-- One `for month in months` iteration as written: line 155 computes the
abbreviation, then line 156-157 resolves `self.station_id`. -/
def buoyMonthStep (w : Web) (b : DataBuoy) (acc : Table × String) (m : Nat) :
    Except PyErr (Table × String) := do
  let ab ← monthAbbrv m
  let station ← battr b "station_id"
  let url := monthUrl ab station
  let valid ← checkurl w url
  if valid then
    let t ← load_url w acc.1 url
    return (t, acc.2)
  else
    return (acc.1, acc.2 ++ ab ++ " not available.\n")

/-- `get_stdmet` (lines 110-164) with faithful attribute resolution.  Returns
the updated instance and the advisory string (`None` when empty). -/
def DataBuoy.get_stdmet (w : Web) (b : DataBuoy) (years months : List Nat)
    (curMonth : Nat) : Except PyErr (DataBuoy × Option String) := do
  if years = [] ∧ months = [] then
    let r ← buoy_walk w b curMonth ""
    let t ← load_url w b.stdmet r.1
    return ({ b with stdmet := t }, if r.2.length > 0 then some r.2 else none)
  else
    let acc ← years.foldlM (buoyYearStep w b) (b.stdmet, "")
    let acc ← months.foldlM (buoyMonthStep w b) acc
    return ({ b with stdmet := acc.1 }, if acc.2.length > 0 then some acc.2 else none)

/-! ### Concrete fixtures used by witnesses and counterexamples -/

/-- A modern monthly payload: `#YY`-headed, units row, minutes column. -/
def pGood : Payload :=
  ⟨["#YY", "MM", "DD", "hh", "mm", "WDIR"],
   [["#yr", "mo", "dy", "hr", "mn", "degT"],
    ["2018", "04", "30", "23", "50", "309"]]⟩

/-- Like `pGood` but with a distinct timestamp (May 1st). -/
def pGood2 : Payload :=
  ⟨["#YY", "MM", "DD", "hh", "mm", "WDIR"],
   [["#yr", "mo", "dy", "hr", "mn", "degT"],
    ["2018", "05", "01", "00", "10", "200"]]⟩

/-- A monthly rolling payload whose year column is plain `YY` (no `#`). -/
def pYY : Payload :=
  ⟨["YY", "MM", "DD", "hh", "WDIR"],
   [["#yr", "mo", "dy", "hr", "degT"],
    ["96", "01", "01", "00", "200"]]⟩

/-- A `#YY`-headed payload with a units row and a two-digit year. -/
def p96 : Payload :=
  ⟨["#YY", "MM", "DD", "hh", "WDIR"],
   [["#yr", "mo", "dy", "hr", "degT"],
    ["96", "01", "01", "00", "200"]]⟩

/-- A historical-style payload: two-digit years, no units row, so every
column is parsed with integer dtype. -/
def pInt96 : Payload :=
  ⟨["#YY", "MM", "DD", "hh", "WDIR"],
   [["96", "01", "01", "00", "200"],
    ["97", "01", "01", "00", "201"]]⟩

/-- A payload whose header has none of the three year-column names. -/
def pNoYear : Payload :=
  ⟨["AA", "MM", "DD", "hh"], [["#a", "2", "3", "4"]]⟩

/-- A payload whose single data row names February 30th. -/
def pBadDay : Payload :=
  ⟨["#YY", "MM", "DD", "hh", "WDIR"],
   [["#yr", "mo", "dy", "hr", "degT"],
    ["2018", "02", "30", "00", "200"]]⟩

/-- A network where every probe completes with status 404 and any fetch
raises. -/
def w404 : Web := ⟨fun _ => .ok 404, fun _ => .error .connectionError⟩

/-- A network where every request raises a transport exception. -/
def wDown : Web := ⟨fun _ => .error .connectionError, fun _ => .error .connectionError⟩

/-- A network where every probe succeeds and every fetch returns `pGood`. -/
def wGood : Web := ⟨fun _ => .ok 200, fun _ => .ok pGood⟩

/-- A freshly constructed `DataBuoy('46042')`. -/
def b0 : DataBuoy := ⟨"46042", []⟩

/-- The batch `pGood` parses to. -/
def cexT1 : Table := [(⟨2018, 4, 30, 23, 50⟩, [.str "309"])]

/-- The batch `pGood2` parses to. -/
def cexT2 : Table := [(⟨2018, 5, 1, 0, 10⟩, [.str "200"])]

/-- The date/time index columns `load_stdmet` ends up using for a payload
with the given header (the `dt_index_cols` list after line 94's assignment,
which always writes `#YY` back onto its own first slot). -/
def dtColsOf (header : List String) : List String :=
  (dtIndexCols0 (decide ("mm" ∈ header))).set 0 "#YY"

/-- The cells of a row that survive `set_index`: everything outside the
date/time index columns, in original column order. -/
def keepProj (header : List String) (r : List Cell) : List Cell :=
  restProj (dtColsOf header) header r

/-! ### Helper lemmas -/

theorem ebind_ok {α β : Type} (a : α) (f : α → Except PyErr β) :
    (Except.ok a >>= f) = f a := rfl

theorem ebind_err {α β : Type} (e : PyErr) (f : α → Except PyErr β) :
    ((Except.error e : Except PyErr α) >>= f) = Except.error e := rfl

theorem epure {α : Type} (a : α) : (pure a : Except PyErr α) = Except.ok a := rfl

/-- What a successful `read_csv` guarantees. -/
theorem read_csv_ok {p : Payload} {df : DataFrame} (h : read_csv p = Except.ok df) :
    df.columns = p.header ∧ df.start = 0 ∧ df.rows = csvCells p ∧
      p.header ≠ [] ∧ p.header.Nodup ∧ ∀ r ∈ p.rows, r.length = p.header.length := by
  unfold read_csv at h
  split at h
  · exact Except.noConfusion h
  next h1 =>
    split at h
    · exact Except.noConfusion h
    next h2 =>
      split at h
      · exact Except.noConfusion h
      next h3 =>
        cases h
        push_neg at h3
        exact ⟨rfl, rfl, rfl, h1, not_not.mp h2, h3⟩

/-- `unitsStep` never changes the column names. -/
theorem unitsStep_columns {df df2 : DataFrame} (h : unitsStep df = Except.ok df2) :
    df2.columns = df.columns := by
  unfold unitsStep at h
  repeat' split at h
  all_goals first
    | exact Except.noConfusion h
    | (cases h; rfl)

/-- The year-type filter over the hardcoded index-column list always selects
`#YY`, whatever the payload's own columns contain. -/
theorem ytSelect_dt (b : Bool) : ytSelect (dtIndexCols0 b) = Except.ok "#YY" := by
  cases b <;> rfl

/-- Column access on an absent column raises `KeyError`. -/
theorem seriesGet_not_mem {df : DataFrame} {col : String} (h : col ∉ df.columns)
    (label : Nat) : seriesGet df col label = Except.error (PyErr.keyError col) := by
  unfold seriesGet
  rw [if_neg h]

/-- A successful `load_stdmet` is a successful pipeline run appended to the
incoming table. -/
theorem load_ok {t : Table} {p : Payload} {t2 : Table}
    (h : load_stdmet t p = Except.ok t2) :
    ∃ batch, stdmetPipeline p = Except.ok batch ∧ t2 = t ++ batch := by
  unfold load_stdmet at h
  cases hb : stdmetPipeline p with
  | error e => rw [hb] at h; simp only [ebind_err] at h; exact Except.noConfusion h
  | ok b =>
    rw [hb] at h
    simp only [ebind_ok, epure] at h
    exact ⟨b, rfl, (Except.ok.inj h).symm⟩

/-- What a successful `setIndex` returns. -/
theorem setIndex_ok {df : DataFrame} {cols : List String}
    {pr : List (List Cell) × List (List Cell)} (h : setIndex df cols = Except.ok pr) :
    pr = (df.rows.map (idxProj df.columns cols), df.rows.map (restProj cols df.columns)) := by
  unfold setIndex at h
  split at h
  · exact Except.noConfusion h
  · cases h; rfl

/-- What a successful `addYear1900` returns. -/
theorem addYear1900_ok {df : DataFrame} {col : String} {df2 : DataFrame}
    (h : addYear1900 df col = Except.ok df2) :
    df2 = ⟨df.columns, df.start, df.rows.map (bumpRow col df.columns)⟩ := by
  unfold addYear1900 at h
  split at h
  · split at h
    · cases h; rfl
    · exact Except.noConfusion h
  · exact Except.noConfusion h

/-- `mapM` over `Except` preserves length on success. -/
theorem mapM_ok_length {α β : Type} (f : α → Except PyErr β) :
    ∀ (l : List α) (res : List β), l.mapM f = Except.ok res → res.length = l.length := by
  intro l
  induction l with
  | nil =>
    intro res h
    cases h
    rfl
  | cons a as ih =>
    intro res h
    rw [List.mapM_cons] at h
    cases hf : f a with
    | error e => rw [hf] at h; simp only [ebind_err] at h; exact Except.noConfusion h
    | ok b =>
      rw [hf] at h
      simp only [ebind_ok] at h
      cases hm : as.mapM f with
      | error e => rw [hm] at h; simp only [ebind_err] at h; exact Except.noConfusion h
      | ok bs =>
        rw [hm] at h
        simp only [ebind_ok, epure] at h
        cases h
        simp [ih bs hm]

/-- Bumping the year column does not change the non-index cells kept by
`restProj`, because the bumped column is itself an index column. -/
theorem restProj_bumpRow (cols : List String) (col : String) (hcol : col ∈ cols) :
    ∀ (ns : List String) (cs : List Cell),
      restProj cols ns (bumpRow col ns cs) = restProj cols ns cs := by
  intro ns
  induction ns with
  | nil => intro cs; rfl
  | cons n ns ih =>
    intro cs
    cases cs with
    | nil => rfl
    | cons c cs =>
      simp only [bumpRow, restProj]
      by_cases hn : n = col
      · rw [if_pos hn, if_pos (hn ▸ hcol), if_pos (hn ▸ hcol)]
        exact ih cs
      · rw [if_neg hn]
        by_cases hm : n ∈ cols
        · rw [if_pos hm, if_pos hm]; exact ih cs
        · rw [if_neg hm, if_neg hm, ih cs]

/-- A token whose first character is `#` is not an integer literal. -/
theorem isIntToken_hash {s : String} {tl : List Char} (h : s.data = '#' :: tl) :
    isIntToken s = false := by
  unfold isIntToken
  rw [h]
  simp [allDigits]

/-- Line 94's write-back is the identity: the first entry of
`dt_index_cols` is already `#YY`. -/
theorem set_dt (b : Bool) : (dtIndexCols0 b).set 0 "#YY" = dtIndexCols0 b := by
  cases b <;> rfl

/-- `#YY` is one of the index columns. -/
theorem mem_dt (b : Bool) : "#YY" ∈ dtIndexCols0 b := by
  cases b <;> decide

/-- The tail of the pipeline (format building, `set_index`, `strptime` and
the final zip): on success the batch has one entry per frame row, and its
value lists are the frame rows with the index columns projected away. -/
theorem pipeline_tail {df3 : DataFrame} {cols : List String} {batch : Table}
    (hb : (buildFormat cols >>= fun fmt =>
        setIndex df3 cols >>= fun pair =>
        (pair.1.mapM fun tup => joinStrs tup >>= fun x => pyStrptime fmt x) >>= fun ts =>
        pure (ts.zip pair.2)) = Except.ok batch) :
    batch.length = df3.rows.length ∧
      batch.map Prod.snd = df3.rows.map (restProj cols df3.columns) := by
  cases hf : buildFormat cols with
  | error e =>
    rw [hf] at hb
    simp only [ebind_err] at hb
    exact Except.noConfusion hb
  | ok fmt =>
    rw [hf] at hb
    simp only [ebind_ok] at hb
    cases hsi : setIndex df3 cols with
    | error e =>
      rw [hsi] at hb
      simp only [ebind_err] at hb
      exact Except.noConfusion hb
    | ok pair =>
      rw [hsi] at hb
      simp only [ebind_ok] at hb
      have hpair := setIndex_ok hsi
      cases hm : pair.1.mapM (fun tup => joinStrs tup >>= fun x => pyStrptime fmt x) with
      | error e =>
        rw [hm] at hb
        simp only [ebind_err] at hb
        exact Except.noConfusion hb
      | ok ts =>
        rw [hm] at hb
        simp only [ebind_ok, epure] at hb
        have hts := mapM_ok_length _ _ _ hm
        have hlen1 : pair.1.length = df3.rows.length := by
          rw [hpair]
          exact List.length_map _ _
        have hlen2 : pair.2.length = df3.rows.length := by
          rw [hpair]
          exact List.length_map _ _
        have hbatch : batch = ts.zip pair.2 := (Except.ok.inj hb).symm
        constructor
        · rw [hbatch, List.length_zip, hts, hlen1, hlen2, min_self]
        · rw [hbatch, List.map_snd_zip _ _ (by rw [hts, hlen1, hlen2])]
          rw [hpair]

/-- Inversion for a successful `Except` bind. -/
theorem ebind_ok_ex {α β : Type} {x : Except PyErr α} {f : α → Except PyErr β} {b : β}
    (h : (x >>= f) = Except.ok b) : ∃ a, x = Except.ok a ∧ f a = Except.ok b := by
  cases x with
  | error e => simp only [ebind_err] at h; exact Except.noConfusion h
  | ok a => exact ⟨a, rfl, h⟩

/-! ### Claim C1 -/

/-- C1 (counterexample): merging two fetches with the same timestamp is not
a set union keyed by timestamp.  Loading `pGood` twice produces a table of
size 2 whose timestamp key set has size 1, and the keys are not unique:
`DataFrame.append` concatenates rows without deduplication. -/
theorem overlap_merge_counterexample :
    load_stdmet [] pGood = Except.ok cexT1 ∧
    load_stdmet cexT1 pGood = Except.ok (cexT1 ++ cexT1) ∧
    (cexT1 ++ cexT1).length = 2 ∧
    ((cexT1 ++ cexT1).map Prod.fst).dedup.length = 1 ∧
    ¬ ((cexT1 ++ cexT1).map Prod.fst).Nodup :=
  ⟨by decide, by decide, by decide, by decide, by decide⟩

/-- C1 (amended): the merge at line 108 is plain concatenation.  For every
table and every successfully parsed batch, the merged table is the old table
followed by the batch, so its size is always the sum of both sizes; when the
timestamp key multisets are disjoint (and each side's keys are unique) the
merged keys stay unique, but overlapping fetches retain duplicate keys. -/
theorem merge_append_semantics (t : Table) (p : Payload) (batch : Table)
    (hb : stdmetPipeline p = Except.ok batch) :
    load_stdmet t p = Except.ok (t ++ batch) ∧
    (t ++ batch).length = t.length + batch.length ∧
    ((t.map Prod.fst).Disjoint (batch.map Prod.fst) → (t.map Prod.fst).Nodup →
      (batch.map Prod.fst).Nodup → ((t ++ batch).map Prod.fst).Nodup) := by
  refine ⟨?_, List.length_append t batch, ?_⟩
  · unfold load_stdmet
    rw [hb]
    rfl
  · intro hdis hn1 hn2
    rw [List.map_append, List.nodup_append]
    exact ⟨hn1, hn2, hdis⟩

/-- Witness for `merge_append_semantics`: two disjoint fetches (`pGood` then
`pGood2`) concatenate to a two-row table with unique timestamp keys. -/
theorem merge_append_semantics_witness :
    load_stdmet cexT1 pGood2 = Except.ok (cexT1 ++ cexT2) ∧
    ((cexT1 ++ cexT2).map Prod.fst).Nodup := by
  have h := merge_append_semantics cexT1 pGood2 cexT2 (by decide)
  have hdis : (cexT1.map Prod.fst).Disjoint (cexT2.map Prod.fst) := by
    intro a ha hb
    simp only [cexT1, cexT2, List.map_cons, List.map_nil, List.mem_singleton] at ha hb
    subst ha
    exact absurd hb (by decide)
  exact ⟨h.1, h.2.2 hdis (by decide) (by decide)⟩

/-! ### Claim C2 -/

/-- C2 (code bug): a monthly payload with header `YY MM DD hh ...` is NOT
recognized.  Line 93 filters `year_types` against the hardcoded
`dt_index_cols` list instead of the payload's columns, so `yt` is always
`#YY` and loading `pYY` raises `KeyError('#YY')` instead of parsing.  The
third conjunct shows what filtering against the payload's header (the
evident intent) would have selected. -/
theorem yy_header_keyerror :
    load_stdmet [] pYY = Except.error (PyErr.keyError "#YY") ∧
    year_types.filter (fun x => decide (x ∈ dtIndexCols0 false)) = ["#YY"] ∧
    year_types.filter (fun x => decide (x ∈ pYY.header)) = ["YY"] :=
  ⟨by decide, by decide, by decide⟩

/-! ### Claim C3 -/

/-- C3 (code bug): the two-digit-year correction can never complete.  On
`p96` (units row present, so the year column has string dtype) the detection
at line 96 fires but line 97's `+ 1900` on a string column raises
`TypeError`; on `pInt96` (no units row, integer dtype) the units check at
line 82 already raises `TypeError` subscripting an integer.  The third
conjunct shows that `data_df['#YY'][1]` on a frame without a dropped units
row reads the SECOND data row (year 97), not the first. -/
theorem two_digit_year_correction_crashes :
    load_stdmet [] p96 = Except.error PyErr.typeError ∧
    load_stdmet [] pInt96 = Except.error PyErr.typeError ∧
    seriesGet ⟨pInt96.header, 0, csvCells pInt96⟩ "#YY" 1 = Except.ok (Cell.int 97) :=
  ⟨by decide, by decide, by decide⟩

/-! ### Claim C4 -/

/-- C4 (code bug): the acquisition call raises `AttributeError` reading
`self.station_id` (the constructor stored `_station_id`) before any probe
runs, so it never returns the advisory string.  The remaining conjuncts show
that the per-period logic of lines 146-164, run with the station resolved as
intended, does satisfy the claim: one failed probe adds no rows and exactly
one advisory entry, two failed probes are both processed, and an all-success
run returns no advisory. -/
theorem get_stdmet_attribute_error_probe :
    DataBuoy.get_stdmet w404 b0 [2007] [] 6 = Except.error PyErr.attributeError ∧
    get_stdmet_logic w404 "46042" [] [2007] [] 6
      = Except.ok ([], some "Year 2007 not available.\n") ∧
    get_stdmet_logic w404 "46042" [] [2007, 2008] [] 6
      = Except.ok ([], some "Year 2007 not available.\nYear 2008 not available.\n") ∧
    get_stdmet_logic wGood "46042" [] [2007] [] 6 = Except.ok (cexT1, none) :=
  ⟨by decide, by decide, by decide, by decide⟩

/-! ### Claim C5 -/

/-- C5 (confirmed): a payload whose header has none of the three recognized
year-column names can never load: every path through `load_stdmet` raises
(at latest, `KeyError('#YY')` at line 96), the error propagates to the
caller, and no merged table is produced. -/
theorem no_year_column_fatal (p : Payload) (t : Table)
    (h1 : "YY" ∉ p.header) (h2 : "YYYY" ∉ p.header) (h3 : "#YY" ∉ p.header) :
    (load_stdmet t p).isOk = false := by
  cases hl : load_stdmet t p with
  | error e => rfl
  | ok t2 =>
    exfalso
    obtain ⟨batch, hb, -⟩ := load_ok hl
    unfold stdmetPipeline at hb
    cases hr : read_csv p with
    | error e =>
      rw [hr] at hb
      simp only [ebind_err] at hb
      exact Except.noConfusion hb
    | ok df =>
      obtain ⟨hc, -, -, -, -, -⟩ := read_csv_ok hr
      rw [hr] at hb
      simp only [ebind_ok] at hb
      cases hu : unitsStep df with
      | error e =>
        rw [hu] at hb
        simp only [ebind_err] at hb
        exact Except.noConfusion hb
      | ok df2 =>
        rw [hu] at hb
        simp only [ebind_ok] at hb
        rw [ytSelect_dt] at hb
        simp only [ebind_ok] at hb
        have hno : "#YY" ∉ df2.columns := by
          rw [unitsStep_columns hu, hc]
          exact h3
        rw [seriesGet_not_mem hno] at hb
        simp only [ebind_err] at hb
        exact Except.noConfusion hb

/-- Witness for `no_year_column_fatal` at the concrete payload `pNoYear`. -/
theorem no_year_column_fatal_witness : (load_stdmet [] pNoYear).isOk = false :=
  no_year_column_fatal pNoYear [] (by decide) (by decide) (by decide)

/-! ### Claim C6 -/

/-- C6 (counterexample): a transport exception during the probe is not
turned into "not available" - `__checkurl__` has no handler, so the
exception propagates out of `__checkurl__` and out of the acquisition call
(here: an explicit-year request against a network that raises). -/
theorem probe_transport_error_propagates :
    checkurl wDown "https://www.ndbc.noaa.gov/data/stdmet/Jun/46042.txt"
      = Except.error PyErr.connectionError ∧
    get_stdmet_logic wDown "46042" [] [2007] [] 6 = Except.error PyErr.connectionError :=
  ⟨by decide, by decide⟩

/-- C6 (amended): the probe is a `HEAD` request whose completed status is
compared with 200 - any completed non-success status yields `False`
("not available") and never raises; but a raised transport exception
propagates unchanged out of `__checkurl__`. -/
theorem checkurl_status_boolean (w : Web) (url : String) :
    (∀ s, w.headStatus url = Except.ok s → checkurl w url = Except.ok (decide (s = 200))) ∧
    (∀ e, w.headStatus url = Except.error e → checkurl w url = Except.error e) := by
  constructor <;> intro x hx <;> unfold checkurl <;> rw [hx] <;> rfl

/-- Witness for `checkurl_status_boolean`: a 404 probe completes as `False`,
a 200 probe as `True`. -/
theorem checkurl_status_boolean_witness :
    checkurl w404 "u" = Except.ok false ∧ checkurl wGood "u" = Except.ok true := by
  have h1 := (checkurl_status_boolean w404 "u").1 404 rfl
  have h2 := (checkurl_status_boolean wGood "u").1 200 rfl
  exact ⟨h1, h2⟩

/-! ### Claim C7 -/

/-- C7 (confirmed): for every payload whose first data row's first value
begins with `#`, that row is treated as a units-annotation row and removed
before indexing, so on a successful load it is excluded from the final
table's row count - the table gains exactly `rows - 1` entries - and every
other data row appears in the table: the value part of the i-th gained entry
is the i-th remaining payload row (as typed by `read_csv`) with the
date/time index columns projected away. -/
theorem units_row_excluded (t t2 : Table) (p : Payload) (r0 : List String) (tok0 : String)
    (hrow : p.rows.head? = some r0) (htok : r0.head? = some tok0)
    (hhash : tok0.data.head? = some '#')
    (hok : load_stdmet t p = Except.ok t2) :
    t2.length = t.length + (p.rows.length - 1) ∧
    (t2.drop t.length).map Prod.snd = ((csvCells p).drop 1).map (keepProj p.header) := by
  obtain ⟨batch, hb, ht2⟩ := load_ok hok
  subst ht2
  cases hp : p.rows with
  | nil => rw [hp] at hrow; exact Option.noConfusion hrow
  | cons ra prest =>
  rw [hp, List.head?_cons] at hrow
  obtain rfl : r0 = ra := (Option.some.inj hrow).symm
  cases r0 with
  | nil => exact Option.noConfusion htok
  | cons ta r0t =>
  rw [List.head?_cons] at htok
  obtain rfl : tok0 = ta := (Option.some.inj htok).symm
  cases htd : tok0.data with
  | nil => rw [htd] at hhash; exact Option.noConfusion hhash
  | cons ca tt =>
  rw [htd, List.head?_cons] at hhash
  obtain rfl : ca = '#' := Option.some.inj hhash
  unfold stdmetPipeline at hb
  obtain ⟨df0, hdf0, hb⟩ := ebind_ok_ex hb
  obtain ⟨hc, hs, hrws, hne, hnd, hwid⟩ := read_csv_ok hdf0
  simp only [] at hb
  cases hh : p.header with
  | nil => exact absurd hh hne
  | cons chd ctl =>
  have hflags : csvFlags p
      = colIsInt p 0 :: ((List.range ctl.length).map Nat.succ).map (colIsInt p) := by
    unfold csvFlags
    rw [hh]
    rw [show (chd :: ctl).length = ctl.length + 1 from rfl]
    rw [List.range_succ_eq_map, List.map_cons]
  have hflag0 : colIsInt p 0 = false := by
    unfold colIsInt
    rw [hp, List.all_cons]
    rw [show (tok0 :: r0t).getD 0 "" = tok0 from rfl]
    rw [isIntToken_hash htd]
    rfl
  have hcsv : csvCells p = (Cell.str tok0 ::
        List.zipWith (fun tok flag => convTok flag tok) r0t
          (((List.range ctl.length).map Nat.succ).map (colIsInt p)))
      :: prest.map (fun r => List.zipWith (fun tok flag => convTok flag tok) r (csvFlags p)) := by
    unfold csvCells
    rw [hp, List.map_cons]
    congr 1
    rw [hflags, hflag0, List.zipWith_cons_cons]
    rfl
  have hdfeq : df0 = ⟨p.header, 0,
      (Cell.str tok0 :: List.zipWith (fun tok flag => convTok flag tok) r0t
        (((List.range ctl.length).map Nat.succ).map (colIsInt p)))
      :: prest.map (fun r => List.zipWith (fun tok flag => convTok flag tok) r (csvFlags p))⟩ := by
    cases df0
    simp only [DataFrame.mk.injEq]
    refine ⟨hc, hs, ?_⟩
    rw [← hcsv]
    exact hrws
  have hu : unitsStep df0 = Except.ok ⟨p.header, 1,
      prest.map (fun r => List.zipWith (fun tok flag => convTok flag tok) r (csvFlags p))⟩ := by
    rw [hdfeq]
    simp only [unitsStep, htd]
    rfl
  obtain ⟨df2, hdf2, hb⟩ := ebind_ok_ex hb
  rw [hu] at hdf2
  obtain rfl := Except.ok.inj hdf2
  obtain ⟨yt, hyt, hb⟩ := ebind_ok_ex hb
  rw [ytSelect_dt] at hyt
  obtain rfl := Except.ok.inj hyt
  obtain ⟨c0, hc0, hb⟩ := ebind_ok_ex hb
  obtain ⟨yv, hyv, hb⟩ := ebind_ok_ex hb
  obtain ⟨dcount, hdc, hb⟩ := ebind_ok_ex hb
  have hfin : ∀ (df3 : DataFrame) (g : List Cell → List Cell),
      df3.columns = p.header →
      df3.rows = (prest.map (fun r =>
        List.zipWith (fun tok flag => convTok flag tok) r (csvFlags p))).map g →
      (∀ cs, restProj (dtColsOf p.header) p.header (g cs)
          = restProj (dtColsOf p.header) p.header cs) →
      batch.length = df3.rows.length →
      batch.map Prod.snd = df3.rows.map (restProj (dtColsOf p.header) df3.columns) →
      ((t ++ batch).length = t.length + (p.rows.length - 1) ∧
        ((t ++ batch).drop t.length).map Prod.snd
          = ((csvCells p).drop 1).map (keepProj p.header)) := by
    intro df3 g hcols3 hrows3 hgkeep hlen hmap
    constructor
    · rw [List.length_append, hlen, hrows3, List.length_map, List.length_map,
        hp, List.length_cons]
      rfl
    · rw [hcols3] at hmap
      rw [List.drop_left, hmap, hcsv]
      rw [show ∀ (a : List Cell) (l : List (List Cell)), (a :: l).drop 1 = l
        from fun a l => rfl]
      rw [hrows3, List.map_map, List.map_map, List.map_map]
      apply List.map_congr_left
      intro r _
      simp only [Function.comp, keepProj]
      exact hgkeep _
  rw [← hp, ← hh]
  by_cases hd2 : dcount = 2
  · rw [if_pos hd2] at hb
    obtain ⟨df3, hdf3, hb⟩ := ebind_ok_ex hb
    have htail := pipeline_tail hb
    have h3 := addYear1900_ok hdf3
    subst h3
    exact hfin _ (bumpRow "#YY" p.header) rfl rfl
      (fun cs => restProj_bumpRow _ _
        (by unfold dtColsOf; rw [set_dt]; exact mem_dt _) _ _)
      htail.1 htail.2
  · rw [if_neg hd2] at hb
    obtain ⟨df3, hdf3, hb⟩ := ebind_ok_ex hb
    have htail := pipeline_tail hb
    rw [epure] at hdf3
    obtain rfl := Except.ok.inj hdf3
    exact hfin _ id rfl (List.map_id _).symm (fun cs => rfl) htail.1 htail.2

/-- Witness for `units_row_excluded`: loading `pGood` (units row plus one
data row) into an empty table yields exactly one entry whose value part is
the data row minus the five date/time columns. -/
theorem units_row_excluded_witness :
    cexT1.length = ([] : Table).length + (pGood.rows.length - 1) ∧
    (cexT1.drop ([] : Table).length).map Prod.snd
      = ((csvCells pGood).drop 1).map (keepProj pGood.header) :=
  units_row_excluded [] cexT1 pGood ["#yr", "mo", "dy", "hr", "mn", "degT"] "#yr"
    (by decide) (by decide) (by decide) (by decide)

/-! ### Claim C8 -/

/-- C8 (counterexample): a default-period query made in January (current
month 1) whose only candidate month is unavailable does not terminate after
exhausting twelve months - the loop body raises `ValueError` at
`dt(year, 0, 1)` after the single probe. -/
theorem january_walk_raises :
    stdmet_walk w404 "46042" 1 "" = Except.error PyErr.valueError :=
  by decide

/-- C8 (amended): the default-period walk probes backward from the current
month and stops at the first available month; when every month from the
current one down to January is unavailable, the next iteration raises
`ValueError` building `dt(year, 0, 1)` instead of terminating normally, so
the walk performs at most `current month` probes (never twelve from
mid-year, and exactly one from January) and never loops forever. -/
theorem walk_characterization :
    (∀ (w : Web) (s : String) (m : Nat) (times : String), 1 ≤ m → m ≤ 12 →
      checkurl w (monthUrl (monthNames.getD (m - 1) "") s) = Except.ok true →
      stdmet_walk w s m times = Except.ok (monthUrl (monthNames.getD (m - 1) "") s, times)) ∧
    (∀ (w : Web) (s : String) (m : Nat), m ≤ 12 →
      (∀ j, 1 ≤ j → j ≤ m → checkurl w (monthUrl (monthNames.getD (j - 1) "") s)
        = Except.ok false) →
      ∀ times, stdmet_walk w s m times = Except.error PyErr.valueError) := by
  constructor
  · intro w s m times h1 h12 hprobe
    cases m with
    | zero => exact absurd h1 (by decide)
    | succ k =>
      unfold stdmet_walk
      have hab : monthAbbrv (k + 1) = Except.ok (monthNames.getD (k + 1 - 1) "") := by
        unfold monthAbbrv
        rw [if_pos ⟨h1, h12⟩]
      rw [hab]
      simp only [ebind_ok]
      rw [hprobe]
      rfl
  · intro w s m
    induction m with
    | zero => intro _ _ times; rfl
    | succ k ih =>
      intro h12 hall times
      unfold stdmet_walk
      have hab : monthAbbrv (k + 1) = Except.ok (monthNames.getD (k + 1 - 1) "") := by
        unfold monthAbbrv
        rw [if_pos ⟨Nat.succ_le_succ (Nat.zero_le k), h12⟩]
      rw [hab]
      simp only [ebind_ok]
      have hp := hall (k + 1) (Nat.succ_le_succ (Nat.zero_le k)) (Nat.le_refl _)
      rw [hp]
      simp only [ebind_ok]
      exact ih (Nat.le_of_succ_le h12)
        (fun j hj1 hjk => hall j hj1 (Nat.le_succ_of_le hjk)) _

/-- Witness for `walk_characterization`: from June with everything
reachable the walk returns June's URL at once; from December with everything
unavailable it probes all twelve months and then raises. -/
theorem walk_characterization_witness :
    stdmet_walk wGood "46042" 6 "" = Except.ok (monthUrl "Jun" "46042", "") ∧
    stdmet_walk w404 "46042" 12 "" = Except.error PyErr.valueError := by
  constructor
  · exact walk_characterization.1 wGood "46042" 6 "" (by decide) (by decide) rfl
  · exact walk_characterization.2 w404 "46042" 12 (by decide) (fun j _ _ => rfl) ""

/-! ### Claim C9 -/

/-- C9 (code bug): the acquisition call cannot build any resource address
from the constructor-supplied station code, because it reads the
`station_id` attribute while `__init__` stored `_station_id`: every call
raises `AttributeError` at the first URL construction (lines 137/148/157).
The last two conjuncts record the single canonical address each template
yields per period once a station string is supplied. -/
theorem station_id_attribute_missing :
    DataBuoy.attr b0 "station_id" = none ∧
    DataBuoy.attr b0 "_station_id" = some "46042" ∧
    DataBuoy.get_stdmet w404 b0 [] [5] 6 = Except.error PyErr.attributeError ∧
    DataBuoy.get_stdmet wGood b0 [] [] 6 = Except.error PyErr.attributeError ∧
    monthUrl "May" "46042" = "https://www.ndbc.noaa.gov/data/stdmet/May/46042.txt" ∧
    yearUrl "46042" 2007
      = "https://www.ndbc.noaa.gov/view_text_file.php?filename=46042h2007.txt.gz&dir=data/historical/stdmet/" :=
  ⟨by decide, by decide, by decide, by decide, by decide, by decide⟩

/-! ### Claim C10 -/

/-- C10 (confirmed): loading is atomic with respect to the station's table.
The batch of lines 79-106 is built without consulting the table; if any step
fails, `load_stdmet` re-raises that same error whatever the current table
is (so the caller's table is untouched), and only on full success is the
table extended, by appending the completely indexed batch at line 108. -/
theorem load_stdmet_atomic (t : Table) (p : Payload) :
    (∀ e, stdmetPipeline p = Except.error e → load_stdmet t p = Except.error e) ∧
    (∀ e t2, load_stdmet t p = Except.error e → load_stdmet t2 p = Except.error e) ∧
    (∀ batch, stdmetPipeline p = Except.ok batch → load_stdmet t p = Except.ok (t ++ batch)) := by
  refine ⟨?_, ?_, ?_⟩
  · intro e he
    unfold load_stdmet
    rw [he]
    rfl
  · intro e t2 he
    unfold load_stdmet at he ⊢
    cases hb : stdmetPipeline p with
    | error e2 =>
      simp only [hb, ebind_err] at he ⊢
      exact he
    | ok b =>
      simp only [hb, ebind_ok, epure] at he
      exact Except.noConfusion he
  · intro batch hb
    unfold load_stdmet
    rw [hb]
    rfl

/-- Witness for `load_stdmet_atomic`: a malformed-timestamp payload
(February 30th) fails with `ValueError` and leaves any caller's table
unmerged, both for an empty table and for `cexT1`. -/
theorem load_stdmet_atomic_witness :
    load_stdmet cexT1 pBadDay = Except.error PyErr.valueError ∧
    load_stdmet [] pBadDay = Except.error PyErr.valueError := by
  refine ⟨(load_stdmet_atomic cexT1 pBadDay).1 PyErr.valueError (by decide), ?_⟩
  exact (load_stdmet_atomic cexT1 pBadDay).2.1 PyErr.valueError []
    ((load_stdmet_atomic cexT1 pBadDay).1 PyErr.valueError (by decide))

end NDBC
